import Mathlib

/-!
Verification of `strava_analysis.py` against its specification.

The Python program is embedded shallowly:

* Floats are modelled as rationals (`ℚ`); pandas `NaN` entries as `Option.none`.
* A pandas `DataFrame` produced by `pd.json_normalize` is a `List Row`, one
  `Row` per input record; a column that a record lacks holds `none` (NaN/NaT),
  and the derived columns added later (`distance_km`, `date`,
  `pace_sec_per_km`, `est_time_sec`) default to `none` until assigned.
* `pd.to_datetime` string parsing is abstracted: timestamps arrive already
  parsed as a calendar day plus seconds-of-day.
* Python exceptions (`KeyError`, `ValueError`) are `Except.error`;
  a function that can only return normally is total.
* The paginated HTTP endpoint is modelled as the list of successive page
  responses; once that list is exhausted every further page is empty.
-/

/-- A parsed timestamp: calendar day (as an absolute day number) plus
seconds within that day.  `.dt.date` projects out `day`. -/
structure Timestamp where
  day : Int
  sec : ℚ
deriving DecidableEq, Repr

/-- One raw activity record from the API.  `none` marks a field the record
does not carry. -/
structure RawActivity where
  type : Option String := Option.none
  distance : Option ℚ := Option.none
  moving_time : Option ℚ := Option.none
  start_date : Option Timestamp := Option.none
  start_date_local : Option Timestamp := Option.none
deriving DecidableEq, Repr

/-- A DataFrame row.  The first five fields are the columns produced by
`pd.json_normalize` from a `RawActivity`; the last four are the derived
columns the program assigns later, `none` while the column is absent. -/
structure Row where
  type : Option String := Option.none
  distance : Option ℚ := Option.none
  moving_time : Option ℚ := Option.none
  start_date : Option Timestamp := Option.none
  start_date_local : Option Timestamp := Option.none
  distance_km : Option ℚ := Option.none
  date : Option Int := Option.none
  pace_sec_per_km : Option ℚ := Option.none
  est_time_sec : Option ℚ := Option.none
deriving DecidableEq, Repr

/-- `get_all_activities` (strava_analysis.py lines 23-33): starting at page 1
the loop requests consecutive pages, appending each page's records, and stops
after the first empty page.  The argument is the sequence of page responses
the server gives to requests 1, 2, 3, …; past its end every response is
empty.  Returns the accumulated records and the number of page requests
issued. -/
def get_all_activities_pages {α : Type} : List (List α) → List α × Nat
  | [] => ([], 1)
  | page :: rest =>
    if page.isEmpty then ([], 1)
    else
      let r := get_all_activities_pages rest
      (page ++ r.1, r.2 + 1)

/-- `pd.json_normalize` applied to one record: each API field becomes the
column of the same name, the derived columns do not exist yet. -/
def rowOfRaw (a : RawActivity) : Row :=
  { type := a.type, distance := a.distance, moving_time := a.moving_time,
    start_date := a.start_date, start_date_local := a.start_date_local }

/-- `activities_to_dataframe` (lines 36-41).  `pd.json_normalize` keeps one
row per record (missing fields become NaN; nothing is dropped).  The two
`pd.to_datetime` lines then read columns `start_date` and `start_date_local`;
`json_normalize` creates a column exactly when some record carries the field,
so if no record does, the read raises `KeyError`. -/
def activities_to_dataframe (activities : List RawActivity) :
    Except String (List Row) :=
  if activities.any (fun a => a.start_date.isSome) then
    if activities.any (fun a => a.start_date_local.isSome) then
      Except.ok (activities.map rowOfRaw)
    else Except.error "KeyError: start_date_local"
  else Except.error "KeyError: start_date"

/-- Number of rows of a table build, `none` when the build raised. -/
def tableLen (t : Except String (List Row)) : Option Nat :=
  t.toOption.map List.length

/-- A raw record lacking one of the fields the spec calls required. -/
def missing_required (a : RawActivity) : Bool :=
  a.distance.isNone || a.moving_time.isNone || a.start_date.isNone

/-- What a pandas scalar reduction can hand back to Python here:
`None` (empty subset), a NaN float, or an actual number. -/
inductive PyResult where
  | none
  | nan
  | val (q : ℚ)
deriving DecidableEq, Repr

/-- The boolean mask `df["distance"] >= distance_km * 1000`: a NaN
distance compares false. -/
def qualifies (distance_km : ℚ) (r : Row) : Bool :=
  match r.distance with
  | some x => decide (distance_km * 1000 ≤ x)
  | Option.none => false

/-- The column `subset["moving_time"] / (subset["distance"] / 1000)`:
NaN in either operand gives NaN. -/
def pace_of (r : Row) : Option ℚ :=
  match r.moving_time, r.distance with
  | some t, some x => some (t / (x / 1000))
  | _, _ => Option.none

/-- The column `subset["pace_sec_per_km"] * distance_km`. -/
def est_of (distance_km : ℚ) (r : Row) : Option ℚ :=
  (pace_of r).map (fun p => p * distance_km)

/-- `Series.min()`: skips NaN entries; on an all-NaN or empty series the
result is NaN (`none`). -/
def series_min (l : List (Option ℚ)) : Option ℚ :=
  (l.filterMap id).min?

/-- `calculate_fastest_times` (lines 70-81), value returned: filter to rows
whose distance is at least `distance_km * 1000`; `None` if that subset is
empty; otherwise the minimum of the estimated times
`moving_time / (distance / 1000) * distance_km`. -/
def calculate_fastest_times (df : List Row) (distance_km : ℚ) : PyResult :=
  let subset := df.filter (qualifies distance_km)
  if subset.isEmpty then PyResult.none
  else
    match series_min (subset.map (est_of distance_km)) with
    | Option.none => PyResult.nan
    | some m => PyResult.val m

/-- `calculate_fastest_times` with the state of the caller's DataFrame made
explicit.  `subset = df[mask].copy()` detaches `subset` from `df`, so the two
column assignments write to the copy and the caller's table is returned as it
came in. -/
def calculate_fastest_times_run (df : List Row) (distance_km : ℚ) :
    PyResult × List Row :=
  let subset := df.filter (qualifies distance_km)
  if subset.isEmpty then (PyResult.none, df)
  else
    let subset1 := subset.map (fun r => { r with pace_sec_per_km := pace_of r })
    let subset2 := subset1.map
      (fun r => { r with est_time_sec := r.pace_sec_per_km.map (fun p => p * distance_km) })
    (match series_min (subset2.map (fun r => r.est_time_sec)) with
      | Option.none => PyResult.nan
      | some m => PyResult.val m,
     df)

/-- `df["distance_km"] = df["distance"] / 1000.0` (line 46). -/
def add_distance_km (df : List Row) : List Row :=
  df.map (fun r => { r with distance_km := r.distance.map (fun x => x / 1000) })

/-- `df["date"] = df["start_date_local"].dt.date` (line 47): the *local*
start date; NaT stays NaT. -/
def add_date (df : List Row) : List Row :=
  df.map (fun r => { r with date := r.start_date_local.map (fun ts => ts.day) })

/-- The distinct values of the `date` column, in first-occurrence order;
`groupby` drops NaN keys. -/
def group_keys (df : List Row) : List Int :=
  (df.filterMap (fun r => r.date)).dedup

/-- Sum of `distance_km` over the rows of one `date` group; NaN entries are
skipped (pandas `sum` with default `skipna`). -/
def group_sum (df : List Row) (k : Int) : ℚ :=
  ((df.filter (fun r => decide (r.date = some k))).filterMap
    (fun r => r.distance_km)).sum

/-- `df.groupby("date")["distance_km"].sum()` (line 48) as an association
list from date to daily total.  (pandas additionally presents the keys in
ascending order; every property stated below is invariant under key order.) -/
def groupby_sum (df : List Row) : List (Int × ℚ) :=
  (group_keys df).map (fun k => (k, group_sum df k))

/-- `plot_distance_over_time` (lines 44-55) with the caller's DataFrame made
explicit: the two column assignments mutate `df` in place, then the daily
grouping is computed from the mutated table.  Returns the table as the caller
sees it afterwards, together with the daily-distance mapping handed to the
plotting calls. -/
def plot_distance_over_time_run (df : List Row) : List Row × List (Int × ℚ) :=
  let df1 := add_date (add_distance_km df)
  (df1, groupby_sum df1)

/-- The daily grouping computed inside `plot_distance_over_time`, as a
function of the table it is given. -/
def total_distance_by_day (df : List Row) : List (Int × ℚ) :=
  groupby_sum (add_date (add_distance_km df))

/-- `fastest_estimated_time` as §4.2 of the spec words it: restrict to the
records whose distance is at least `target_distance_km` expressed in meters;
give each one the estimated time `pace × target_distance_km` where
`pace = moving_time / distance_km`; return the minimum of these estimated
times, or "no result" when the filtered set is empty. -/
def fastest_estimated_time_spec (df : List Row) (distance_km : ℚ) : PyResult :=
  match (df.filterMap (fun r =>
    match r.distance, r.moving_time with
    | some x, some t =>
      if distance_km * 1000 ≤ x then some (t / (x / 1000) * distance_km)
      else Option.none
    | _, _ => Option.none)).min? with
  | Option.none => PyResult.none
  | some m => PyResult.val m

/-- `res` is an actual numeric result and it is at most `bound`. -/
def result_le (res : PyResult) (bound : ℚ) : Prop :=
  ∃ m, res = PyResult.val m ∧ m ≤ bound

/-- A concrete timestamp (midnight of day 0) for scenario records. -/
def ts0 : Timestamp := { day := 0, sec := 0 }

/-- Scenario row: distance 5000 m, moving_time 1500 s, type Run. -/
def run5k : Row :=
  { type := some "Run", distance := some 5000, moving_time := some 1500,
    start_date := some ts0, start_date_local := some ts0 }

/-- Scenario row: distance 10000 m, moving_time 3000 s, type Run. -/
def run10k : Row :=
  { type := some "Run", distance := some 10000, moving_time := some 3000,
    start_date := some ts0, start_date_local := some ts0 }

/-- The two-record scenario table of spec §8. -/
def scenario_table : List Row := [run5k, run10k]

/-- A raw record carrying every field. -/
def raw_complete : RawActivity :=
  { type := some "Run", distance := some 5000, moving_time := some 1500,
    start_date := some ts0, start_date_local := some ts0 }

/-- A raw record missing the required `distance` field. -/
def raw_no_distance : RawActivity :=
  { type := some "Run", distance := Option.none, moving_time := some 1500,
    start_date := some ts0, start_date_local := some ts0 }

/-- `if not access_token` (line 108): `os.getenv` returns `None` when the
variable is unset, and both `None` and the empty string are falsy. -/
def token_missing (env : Option String) : Bool :=
  match env with
  | Option.none => true
  | some s => s.isEmpty

/-- `main` (lines 105-115): read the token from the environment; if missing
or empty raise `ValueError` at once, otherwise fetch all pages, build the
table and run the plots.  Returns the run's outcome together with the number
of page requests issued. -/
def main_run (env : Option String) (pages : List (List RawActivity)) :
    Except String (List Row) × Nat :=
  if token_missing env then
    (Except.error "ValueError: STRAVA_ACCESS_TOKEN environment variable not set.", 0)
  else
    let fetched := get_all_activities_pages pages
    match activities_to_dataframe fetched.1 with
    | Except.error e => (Except.error e, fetched.2)
    | Except.ok df => (Except.ok (plot_distance_over_time_run df).1, fetched.2)

/-- C1: for every finite sequence of non-empty pages followed by one empty
page, `get_all_activities` terminates and returns exactly the concatenation
of those pages in page order, issuing one request per page including the
final empty one. -/
theorem get_all_activities_concat (ps : List (List Nat))
    (h : ∀ p ∈ ps, p ≠ []) :
    get_all_activities_pages (ps ++ [[]]) = (ps.flatten, ps.length + 1) := by
  induction ps with
  | nil => rfl
  | cons p ps ih =>
    have hp : p ≠ [] := h p (List.mem_cons_self p ps)
    have hpe : p.isEmpty = false := by
      cases p with
      | nil => exact absurd rfl hp
      | cons a as => rfl
    simp [get_all_activities_pages, hpe,
      ih (fun q hq => h q (List.mem_cons_of_mem _ hq))]

set_option maxRecDepth 8000 in
/-- C1 witness: pages of sizes [200, 200, 43, 0] give 443 records in 4
requests. -/
theorem get_all_activities_concat_witness :
    (∀ p ∈ [List.replicate 200 0, List.replicate 200 0, List.replicate 43 0],
        p ≠ []) ∧
    (get_all_activities_pages
      ([List.replicate 200 0, List.replicate 200 0, List.replicate 43 0]
        ++ [[]])).1.length = 443 ∧
    (get_all_activities_pages
      ([List.replicate 200 0, List.replicate 200 0, List.replicate 43 0]
        ++ [[]])).2 = 4 := by
  have hne : ∀ p ∈ [List.replicate 200 0, List.replicate 200 0,
      List.replicate 43 0], p ≠ [] := by decide
  have h := get_all_activities_concat
    [List.replicate 200 0, List.replicate 200 0, List.replicate 43 0] hne
  refine ⟨hne, ?_, ?_⟩ <;> rw [h]
  · decide
  · rfl

/-- C7: when the bearer-token environment variable is absent or empty,
`main` fails with the `ValueError` configuration error having issued zero
page requests. -/
theorem main_aborts_without_token (env : Option String)
    (pages : List (List RawActivity)) (h : token_missing env = true) :
    main_run env pages =
      (Except.error "ValueError: STRAVA_ACCESS_TOKEN environment variable not set.",
       0) := by
  simp [main_run, h]

/-- C7 witness: both an unset and an empty token abort with zero requests. -/
theorem main_aborts_without_token_witness :
    token_missing Option.none = true ∧ token_missing (some "") = true ∧
    main_run Option.none [] =
      (Except.error "ValueError: STRAVA_ACCESS_TOKEN environment variable not set.",
       0) ∧
    main_run (some "") [[raw_complete]] =
      (Except.error "ValueError: STRAVA_ACCESS_TOKEN environment variable not set.",
       0) :=
  ⟨rfl, rfl, main_aborts_without_token Option.none [] rfl,
    main_aborts_without_token (some "") [[raw_complete]] rfl⟩

/-- C4 counterexample: a build whose input contains a record missing the
required `distance` field still yields one row per record (2 rows from 2
records), so cardinality equality does not certify that no record was
malformed, and the malformed record is not excluded. -/
theorem build_table_keeps_malformed_record :
    tableLen (activities_to_dataframe [raw_no_distance, raw_complete]) =
      some 2 ∧
    missing_required raw_no_distance = true := by
  exact ⟨rfl, rfl⟩

/-- C4 amended: whenever some record carries `start_date` and some record
carries `start_date_local` (so the two timestamp columns exist), the build
succeeds and produces exactly one row per input record; records missing
fields are kept with null entries, never excluded. -/
theorem build_table_row_count (activities : List RawActivity)
    (h1 : activities.any (fun a => a.start_date.isSome) = true)
    (h2 : activities.any (fun a => a.start_date_local.isSome) = true) :
    tableLen (activities_to_dataframe activities) = some activities.length := by
  simp [activities_to_dataframe, h1, h2, tableLen, Except.toOption]

/-- C4 witness: a two-record build (one record malformed) has both timestamp
columns and yields exactly 2 rows. -/
theorem build_table_row_count_witness :
    ([raw_no_distance, raw_complete].any (fun a => a.start_date.isSome)
      = true) ∧
    ([raw_no_distance, raw_complete].any (fun a => a.start_date_local.isSome)
      = true) ∧
    tableLen (activities_to_dataframe [raw_no_distance, raw_complete]) =
      some 2 := by
  refine ⟨rfl, rfl, ?_⟩
  exact build_table_row_count [raw_no_distance, raw_complete] rfl rfl

/-- C5 counterexample: on the empty record list the build raises `KeyError`
(the `start_date` column does not exist on an empty normalized frame); no
table, empty or otherwise, is produced. -/
theorem build_table_empty_raises :
    activities_to_dataframe [] = Except.error "KeyError: start_date" ∧
    tableLen (activities_to_dataframe []) = Option.none :=
  ⟨rfl, rfl⟩

/-- C5 amended: on an empty raw record list `build_table` aborts with a
`KeyError` instead of yielding an empty table; `fastest_estimated_time`
applied to an empty table returns the "no result" sentinel for every target
distance. -/
theorem build_table_empty_and_fastest_no_result :
    activities_to_dataframe [] = Except.error "KeyError: start_date" ∧
    ∀ d : ℚ, calculate_fastest_times [] d = PyResult.none :=
  ⟨rfl, fun _ => rfl⟩

/-- The distance mask is false exactly when the row has no distance of at
least `d * 1000` meters. -/
theorem qualifies_eq_false_iff (d : ℚ) (r : Row) :
    qualifies d r = false ↔ ∀ x : ℚ, r.distance = some x → x < d * 1000 := by
  rcases h : r.distance with _ | x
  · simp [qualifies, h]
  · simp [qualifies, h, not_le]

/-- The series the code minimises equals the estimated-time column with NaN
entries dropped. -/
theorem series_min_map_est (df : List Row) (d : ℚ) :
    series_min (df.map (est_of d)) = (df.filterMap (est_of d)).min? := by
  unfold series_min
  rw [List.filterMap_map]
  rfl

/-- C3: `calculate_fastest_times` returns the `None` sentinel exactly when no
record's distance reaches `d * 1000` meters; the sentinel is distinct from a
zero-duration numeric result.  (The function is total: it never raises.) -/
theorem fastest_none_iff_no_qualifier (df : List Row) (d : ℚ) :
    (calculate_fastest_times df d = PyResult.none ↔
      ∀ r ∈ df, ∀ x : ℚ, r.distance = some x → x < d * 1000) ∧
    (PyResult.none : PyResult) ≠ PyResult.val 0 := by
  refine ⟨?_, by simp⟩
  by_cases hs : (df.filter (qualifies d)).isEmpty
  · have h0 : df.filter (qualifies d) = [] := by simpa using hs
    have hres : calculate_fastest_times df d = PyResult.none := by
      simp [calculate_fastest_times, hs]
    rw [hres]
    constructor
    · intro _ r hr x hx
      have hqf : qualifies d r = false := by
        simpa using List.filter_eq_nil_iff.mp h0 r hr
      exact (qualifies_eq_false_iff d r).mp hqf x hx
    · intro _; rfl
  · have hs' : (df.filter (qualifies d)).isEmpty = false := by
      simpa using hs
    have h0 : df.filter (qualifies d) ≠ [] := by simpa using hs
    rcases List.exists_mem_of_ne_nil _ h0 with ⟨r, hrmem⟩
    have hrdf : r ∈ df := List.mem_of_mem_filter hrmem
    have hq : qualifies d r = true := List.of_mem_filter hrmem
    have hform : calculate_fastest_times df d =
        match series_min ((df.filter (qualifies d)).map (est_of d)) with
        | Option.none => PyResult.nan
        | some m => PyResult.val m := by
      simp [calculate_fastest_times, hs']
    rw [hform]
    constructor
    · intro hcontr
      exfalso
      rcases hmin : series_min ((df.filter (qualifies d)).map (est_of d))
        with _ | m <;> rw [hmin] at hcontr <;> exact PyResult.noConfusion hcontr
    · intro hall
      exfalso
      rcases hx : r.distance with _ | x
      · simp [qualifies, hx] at hq
      · have hlt := hall r hrdf x hx
        simp [qualifies, hx] at hq
        exact absurd hq (not_le.mpr hlt)

/-- C2: whenever the target distance is positive and every record carries a
moving time (as the data model requires), the value computed by
`calculate_fastest_times` equals the spec's reference definition. -/
theorem calculate_fastest_times_eq_spec (df : List Row) (d : ℚ)
    (hd : 0 < d) (hm : ∀ r ∈ df, r.moving_time.isSome) :
    calculate_fastest_times df d = fastest_estimated_time_spec df d := by
  have hE : df.filterMap (fun r =>
      match r.distance, r.moving_time with
      | some x, some t =>
        if d * 1000 ≤ x then some (t / (x / 1000) * d) else Option.none
      | _, _ => Option.none) =
      (df.filter (qualifies d)).filterMap (est_of d) := by
    rw [List.filterMap_filter]
    apply List.filterMap_congr
    intro r hr
    rcases ht : r.moving_time with _ | t
    · have := hm r hr; simp [ht] at this
    rcases hx : r.distance with _ | x
    · simp [qualifies, hx, ht]
    by_cases hq : d * 1000 ≤ x
    · simp [qualifies, hx, ht, hq, est_of, pace_of]
    · simp [qualifies, hx, ht, hq]
  by_cases hs : (df.filter (qualifies d)).isEmpty
  · have h0 : df.filter (qualifies d) = [] := by simpa using hs
    simp [calculate_fastest_times, fastest_estimated_time_spec, hs, hE, h0]
  · have hs' : (df.filter (qualifies d)).isEmpty = false := by simpa using hs
    have h0 : df.filter (qualifies d) ≠ [] := by simpa using hs
    rcases List.exists_mem_of_ne_nil _ h0 with ⟨r, hrmem⟩
    have hrdf : r ∈ df := List.mem_of_mem_filter hrmem
    have hq : qualifies d r = true := List.of_mem_filter hrmem
    have hsome : (est_of d r).isSome := by
      rcases ht : r.moving_time with _ | t
      · have := hm r hrdf; simp [ht] at this
      rcases hx : r.distance with _ | x
      · simp [qualifies, hx] at hq
      · simp [est_of, pace_of, ht, hx]
    rcases Option.isSome_iff_exists.mp hsome with ⟨v, hv⟩
    have hvmem : v ∈ (df.filter (qualifies d)).filterMap (est_of d) :=
      List.mem_filterMap.mpr ⟨r, hrmem, hv⟩
    have hmin : ((df.filter (qualifies d)).filterMap (est_of d)).min?.isSome :=
      List.isSome_min?_of_mem hvmem
    rcases Option.isSome_iff_exists.mp hmin with ⟨m, hm'⟩
    simp [calculate_fastest_times, fastest_estimated_time_spec, hs',
      series_min_map_est, hE, hm']

/-- C2 witness: the scenario table of two runs at target 5 km satisfies the
hypotheses, the code agrees with the reference definition there, and both
give 1500 seconds. -/
theorem calculate_fastest_times_eq_spec_witness :
    (0 : ℚ) < 5 ∧ (∀ r ∈ scenario_table, r.moving_time.isSome) ∧
    calculate_fastest_times scenario_table 5 =
      fastest_estimated_time_spec scenario_table 5 ∧
    calculate_fastest_times scenario_table 5 = PyResult.val 1500 := by
  refine ⟨by norm_num, by decide,
    calculate_fastest_times_eq_spec scenario_table 5 (by norm_num) (by decide),
    ?_⟩
  norm_num [calculate_fastest_times, scenario_table, run5k, run10k, qualifies,
    series_min, est_of, pace_of, List.filter, List.filterMap, List.min?,
    List.foldl]

/-- C8: with a positive target, if some record qualifies then the result is a
numeric value bounded by the estimated time of every qualifying record —
in particular by that of the slowest one. -/
theorem fastest_le_each_qualifier (df : List Row) (d : ℚ) (r : Row) (x t : ℚ)
    (hd : 0 < d) (hr : r ∈ df) (hx : r.distance = some x)
    (ht : r.moving_time = some t) (hq : d * 1000 ≤ x) :
    result_le (calculate_fastest_times df d) (t / (x / 1000) * d) := by
  have hqr : qualifies d r = true := by simp [qualifies, hx, hq]
  have hrmem : r ∈ df.filter (qualifies d) := List.mem_filter.mpr ⟨hr, hqr⟩
  have hs' : (df.filter (qualifies d)).isEmpty = false := by
    simp only [List.isEmpty_eq_false]
    exact List.ne_nil_of_mem hrmem
  have hv : est_of d r = some (t / (x / 1000) * d) := by
    simp [est_of, pace_of, hx, ht]
  have hvmem : (t / (x / 1000) * d) ∈
      (df.filter (qualifies d)).filterMap (est_of d) :=
    List.mem_filterMap.mpr ⟨r, hrmem, hv⟩
  have hmin : ((df.filter (qualifies d)).filterMap (est_of d)).min?.isSome :=
    List.isSome_min?_of_mem hvmem
  rcases Option.isSome_iff_exists.mp hmin with ⟨m, hm'⟩
  have hle : m ≤ t / (x / 1000) * d :=
    ((List.le_min?_iff (fun a b c => le_min_iff) hm').mp le_rfl) _ hvmem
  refine ⟨m, ?_, hle⟩
  simp [calculate_fastest_times, hs', series_min_map_est, hm']

/-- C8 witness: at target 10 km on the scenario table, the 10 km run
qualifies and bounds the result. -/
theorem fastest_le_each_qualifier_witness :
    result_le (calculate_fastest_times scenario_table 10)
      (3000 / (10000 / 1000) * 10) :=
  fastest_le_each_qualifier scenario_table 10 run10k 10000 3000
    (by norm_num) (by simp [scenario_table]) rfl rfl (by norm_num)

/-- C9: `calculate_fastest_times` leaves the caller's table unchanged (the
pace and estimated-time columns go onto a detached copy of the filtered
subset), and the value it returns is the one computed above. -/
theorem calculate_fastest_times_frame (df : List Row) (d : ℚ) :
    (calculate_fastest_times_run df d).2 = df ∧
    (calculate_fastest_times_run df d).1 = calculate_fastest_times df d := by
  by_cases hs : (df.filter (qualifies d)).isEmpty
  · constructor <;> simp [calculate_fastest_times_run, calculate_fastest_times, hs]
  · have hs' : (df.filter (qualifies d)).isEmpty = false := by simpa using hs
    constructor
    · simp [calculate_fastest_times_run, hs']
    · simp only [calculate_fastest_times_run, calculate_fastest_times, hs',
        Bool.false_eq_true, if_false, List.map_map]
      rfl

/-- The two in-place column assignments, as one map over the table. -/
theorem add_cols_eq_map (df : List Row) :
    add_date (add_distance_km df) = df.map (fun r =>
      { r with distance_km := r.distance.map (fun x => x / 1000),
               date := r.start_date_local.map (fun ts => ts.day) }) := by
  unfold add_date add_distance_km
  rw [List.map_map]
  rfl

/-- Re-running the two column assignments changes nothing: they are
recomputed from the untouched `distance` and `start_date_local` columns. -/
theorem add_cols_idem (df : List Row) :
    add_date (add_distance_km (add_date (add_distance_km df))) =
      add_date (add_distance_km df) := by
  rw [add_cols_eq_map df, add_cols_eq_map, List.map_map]
  rfl

/-- Summing `if a = k then v else 0` over a duplicate-free key list that
contains `a` gives `v`. -/
theorem sum_map_ite_eq (K : List Int) (a : Int) (v : ℚ)
    (hK : K.Nodup) (ha : a ∈ K) :
    (K.map (fun k => if a = k then v else 0)).sum = v := by
  induction K with
  | nil => cases ha
  | cons b K ih =>
    rcases List.nodup_cons.mp hK with ⟨hbK, hKnd⟩
    rcases List.mem_cons.mp ha with h | h
    · subst h
      have h0 : (K.map (fun k => if a = k then v else 0)).sum = 0 := by
        apply List.sum_eq_zero
        intro y hy
        rcases List.mem_map.mp hy with ⟨k, hk, rfl⟩
        exact if_neg (by rintro rfl; exact hbK hk)
      simp [h0]
    · have hab : a ≠ b := by rintro rfl; exact hbK h
      simp [hab, ih hKnd h]

/-- Partition property of the grouping: over any duplicate-free key list
covering every date present, the group sums add up to the skipna sum of
`distance_km` across the rows with a (non-NaN) date. -/
theorem groups_sum_covering (df : List Row) (K : List Int) (hK : K.Nodup)
    (hcov : ∀ r ∈ df, ∀ k, r.date = some k → k ∈ K) :
    (K.map (fun k => group_sum df k)).sum =
      ((df.filter (fun r => r.date.isSome)).filterMap
        (fun r => r.distance_km)).sum := by
  induction df with
  | nil =>
    have h0 : ∀ k : Int, group_sum [] k = 0 := fun k => rfl
    simp [h0]
  | cons r df ih =>
    have hcov' : ∀ r' ∈ df, ∀ k, r'.date = some k → k ∈ K := fun r' h' =>
      hcov r' (List.mem_cons_of_mem _ h')
    have step : ∀ k, group_sum (r :: df) k =
        (if r.date = some k then (r.distance_km).getD 0 else 0)
          + group_sum df k := by
      intro k
      unfold group_sum
      by_cases h : r.date = some k
      · rw [List.filter_cons_of_pos (by simp [h])]
        rcases hdk : r.distance_km with _ | v <;>
          simp [List.filterMap_cons, hdk, h]
      · rw [List.filter_cons_of_neg (by simp [h])]
        simp [h]
    rcases hrd : r.date with _ | a
    · have hsame : ∀ k, group_sum (r :: df) k = group_sum df k := by
        intro k; rw [step k, hrd]; simp
      simp only [hsame]
      rw [ih hcov', List.filter_cons_of_neg (by simp [hrd])]
    · have hsplit : ∀ k, group_sum (r :: df) k =
          (if a = k then (r.distance_km).getD 0 else 0) + group_sum df k := by
        intro k; rw [step k, hrd]; simp
      simp only [hsplit]
      rw [List.sum_map_add]
      rw [sum_map_ite_eq K a _ hK (hcov r (List.mem_cons_self r df) a hrd),
        ih hcov', List.filter_cons_of_pos (by simp [hrd])]
      rcases hdk : r.distance_km with _ | v <;>
        simp [List.filterMap_cons, hdk]

/-- The skipna sum of `distance_km` over rows of the augmented table with a
valid date equals the same sum computed from the original columns. -/
theorem augmented_valid_sum (df : List Row) :
    (((add_date (add_distance_km df)).filter
        (fun r => r.date.isSome)).filterMap (fun r => r.distance_km)).sum =
      ((df.filter (fun r => r.start_date_local.isSome)).filterMap
        (fun r => r.distance.map (fun x => x / 1000))).sum := by
  rw [add_cols_eq_map]
  induction df with
  | nil => rfl
  | cons r df ih =>
    rw [List.map_cons]
    rcases hsdl : r.start_date_local with _ | ts
    · rw [List.filter_cons_of_neg (by simp [hsdl]),
        List.filter_cons_of_neg (by simp [hsdl])]
      exact ih
    · rw [List.filter_cons_of_pos (by simp [hsdl]),
        List.filter_cons_of_pos (by simp [hsdl])]
      simp only [List.filterMap_cons]
      rcases hd : r.distance with _ | x
      · simpa [hd] using ih
      · simp only [hd, Option.map_some', List.sum_cons]
        rw [ih]

/-- C6: the daily grouping keys on the local start date; it is idempotent
(recomputing it on the table mutated by `plot_distance_over_time` gives the
same mapping); the mapped daily values add up to the sum of `distance_km`
over the records with a valid local start date; and its keys are exactly the
distinct local start dates. -/
theorem total_distance_by_day_props (df : List Row) :
    total_distance_by_day (plot_distance_over_time_run df).1 =
      total_distance_by_day df ∧
    ((total_distance_by_day df).map Prod.snd).sum =
      ((df.filter (fun r => r.start_date_local.isSome)).filterMap
        (fun r => r.distance.map (fun x => x / 1000))).sum ∧
    (total_distance_by_day df).map Prod.fst =
      (df.filterMap (fun r => r.start_date_local.map (fun ts => ts.day))).dedup := by
  refine ⟨?_, ?_, ?_⟩
  · simp only [total_distance_by_day, plot_distance_over_time_run]
    rw [add_cols_idem]
  · unfold total_distance_by_day groupby_sum group_keys
    rw [List.map_map]
    have hcomp : (Prod.snd ∘ fun k =>
        (k, group_sum (add_date (add_distance_km df)) k)) =
        fun k => group_sum (add_date (add_distance_km df)) k := rfl
    rw [hcomp]
    rw [groups_sum_covering (add_date (add_distance_km df)) _
      (List.nodup_dedup _)
      (fun r hr k hk => List.mem_dedup.mpr (List.mem_filterMap.mpr ⟨r, hr, hk⟩))]
    exact augmented_valid_sum df
  · unfold total_distance_by_day groupby_sum group_keys
    rw [List.map_map]
    have hcomp : (Prod.fst ∘ fun k =>
        (k, group_sum (add_date (add_distance_km df)) k)) = id := rfl
    rw [hcomp, List.map_id, add_cols_eq_map, List.filterMap_map]
    rfl

/-- C10: `plot_distance_over_time` mutates the caller's table in place,
adding the `distance_km` column (distance / 1000) and the `date` column (the
local start date), while keeping the row count and every preexisting column
unchanged. -/
theorem plot_mutates_in_place (df : List Row) :
    (plot_distance_over_time_run df).1.length = df.length ∧
    List.Forall₂ (fun r' r =>
      r'.type = r.type ∧ r'.distance = r.distance ∧
      r'.moving_time = r.moving_time ∧ r'.start_date = r.start_date ∧
      r'.start_date_local = r.start_date_local ∧
      r'.distance_km = r.distance.map (fun x => x / 1000) ∧
      r'.date = r.start_date_local.map (fun ts => ts.day))
      (plot_distance_over_time_run df).1 df := by
  have hmap : (plot_distance_over_time_run df).1 = df.map (fun r =>
      { r with distance_km := r.distance.map (fun x => x / 1000),
               date := r.start_date_local.map (fun ts => ts.day) }) := by
    simp only [plot_distance_over_time_run]
    exact add_cols_eq_map df
  constructor
  · rw [hmap, List.length_map]
  · rw [hmap, List.forall₂_map_left_iff]
    rw [List.forall₂_same]
    intro r _
    simp
